import Mathlib

/-!
Verification of the pandaSQL core (pandasql/core.py): a lazy dual-backend
tabular query engine.  Nodes of a deferred-computation DAG are materialized
either on an in-memory engine (pandas) or on an embedded relational engine
(SQLite) reached through generated SQL.

The definitions below are a shallow embedding of the relevant parts of
pandasql/core.py.  External probes (memory estimation, free memory, the rows
a SELECT returns) are passed in as explicit environment fields, and
backend-materializing calls are recorded as explicit actions instead of
being performed.  The dependency-graph helpers imported by core.py from
pandasql.graph_utils are not part of the sources; where they matter, the
topologically ordered ancestor list is taken as an input, modelled from the
specification.
-/

namespace PandaSQL

/-- Rows of a materialized table, abstracted to a list of row values. -/
abbrev Table := List Int

/-- Backend-materializing side effects issued by the execution engine:
a CREATE TABLE ... AS statement, a full-table read back into memory, or a
bulk load of in-memory rows into a relational table (df.to_sql). -/
inductive Action where
  | createTable
  | readTable
  | bulkLoad
deriving DecidableEq, Repr

/-- Errors raised by the execution engine at compute time:
the backend-unreachability error of ensure_computable (carrying the
number of dependencies that cannot be computed), the fallback-blocked
error (carrying the number of pending pandas-only operations), and the
MemoryError raised by the result property when a result is too big. -/
inductive EErr where
  | unreachable (faults : Nat)
  | fallbackBlocked (count : Nat)
  | memoryError
deriving DecidableEq, Repr

/-- Execution backend: the in-memory engine or the relational engine. -/
inductive Backend where
  | pandas
  | sqlite
deriving DecidableEq, Repr

/-- Per-node mutable state of a BaseFrame: the optional in-memory cached
result, the relational-cache flag, the computed-on-pandas flag, the
out-of-memory flag, the optional result post-processing step (present on
Aggregator nodes as process_result), and the column names. -/
structure NodeState where
  cachedResult : Option Table
  cachedOnSqlite : Bool
  computedOnPandas : Bool
  outOfMemory : Bool
  processResult : Option (Table → Table)
  columns : List String

/-- Environment of one _compute_sqlite run: the estimated in-memory
footprint of the freshly created table, the currently available memory,
and the rows and columns a SELECT * read-back would return. -/
structure SqliteEnv where
  estimate : Nat
  freeMem : Nat
  tableData : Table
  tableCols : List String

/-- Translation of the BaseFrame.result property: with no cached result,
raise MemoryError when the out-of-memory flag is set and return None
otherwise; with a cached result, apply process_result when the node has one
and was not computed on pandas, else return the cached result. -/
def resultOf (s : NodeState) : Except EErr (Option Table) :=
  match s.cachedResult with
  | none =>
      if s.outOfMemory then Except.error EErr.memoryError else Except.ok none
  | some r =>
      match s.processResult with
      | some f =>
          if s.computedOnPandas then Except.ok (some r) else Except.ok (some (f r))
      | none => Except.ok (some r)

/-- Second half of _compute_sqlite: with the table now on SQLite, if no
in-memory result is cached, estimate the pandas footprint; when it exceeds
free memory set the out-of-memory flag and stop, otherwise read the full
table back into memory, caching rows and columns. -/
def computeSqliteRead (env : SqliteEnv) (s : NodeState) (acts : List Action) :
    NodeState × List Action :=
  match s.cachedResult with
  | none =>
      if env.freeMem < env.estimate then
        ({ s with outOfMemory := true }, acts)
      else
        ({ s with cachedResult := some env.tableData, columns := env.tableCols },
          acts ++ [Action.readTable])
  | some _ => (s, acts)

/-- Translation of BaseFrame._compute_sqlite: when the node is not yet
cached on SQLite, execute CREATE TABLE name AS query and mark it cached;
then run the read-back step. -/
def computeSqlite (env : SqliteEnv) (s : NodeState) : NodeState × List Action :=
  if s.cachedOnSqlite then
    computeSqliteRead env s []
  else
    computeSqliteRead env { s with cachedOnSqlite := true } [Action.createTable]

/-- Translation of BaseFrame._compute_pandas: when no result is cached,
evaluate on pandas (the value produced by the _pandas method of the node,
or by applying the pending column update, is the pandasVal parameter) and
mark the node computed on pandas; when offload is set, also bulk-load the
result into SQLite.  The recursive materialization of the ordered
dependencies happens node by node through their own compute calls and is
not part of this single-node step. -/
def computePandas (pandasVal : Table) (offload : Bool) (s : NodeState) :
    NodeState × List Action :=
  match s.cachedResult with
  | none =>
      let s1 := { s with cachedResult := some pandasVal, computedOnPandas := true }
      if offload then
        ({ s1 with cachedOnSqlite := true }, [Action.bulkLoad])
      else
        (s1, [])
  | some _ => (s, [])

/-- Operation kinds of the node variants of core.py.  GroupBy container
nodes (GroupByDataFrame, GroupByProjection), Criterion nodes and Constant
nodes subclass BaseFrame but not DataFrame; every other kind subclasses
DataFrame. -/
inductive Kind where
  | base
  | projectionK
  | selectionK
  | joinK
  | unionK
  | orderByK
  | limitK
  | groupByK
  | groupByProjectionK
  | aggregatorK
  | fallbackK
  | criterionK
  | constantK
deriving DecidableEq, Repr

/-- Static view of a graph node as seen by ensure_computable and the SQL
compiler: process-unique id, SQL alias name, ids of its sources, operation
kind, whether an in-memory result is cached, whether the node is cached on
SQLite, its templated SQL fragment, and the SQL fragment of its pending
update when one exists. -/
structure GNode where
  id : Nat
  name : String
  sources : List Nat
  kind : Kind
  cachedResult : Bool
  cachedOnSqlite : Bool
  sqlQuery : String
  updateQuery : Option String
deriving DecidableEq, Repr

/-- The isinstance check against DataFrame used by _define_dependencies:
true for every variant except the GroupBy containers, Criterion and
Constant. -/
def isDataFrame (t : GNode) : Bool :=
  match t.kind with
  | Kind.groupByK => false
  | Kind.groupByProjectionK => false
  | Kind.criterionK => false
  | Kind.constantK => false
  | _ => true

/-- The is_cached test of _ensure_computable: on pandas a node is cached
when its in-memory result exists, on sqlite when its table exists on the
relational engine. -/
def isCachedOn (on' : Backend) (t : GNode) : Bool :=
  match on' with
  | Backend.pandas => t.cachedResult
  | Backend.sqlite => t.cachedOnSqlite

/-- One iteration of the computable loop of _ensure_computable: a node is
marked computable when it is already cached, or when it has at least one
source and every source was marked computable earlier in the topological
order; otherwise the fault counter is incremented.  The accumulator pairs
the computable map (false for ids not yet assigned) with the fault count. -/
def computableStep (isCached : GNode → Bool) (acc : (Nat → Bool) × Nat)
    (dep : GNode) : (Nat → Bool) × Nat :=
  let c := isCached dep || (!dep.sources.isEmpty && dep.sources.all acc.1)
  (fun i => if i = dep.id then c else acc.1 i, if c then acc.2 else acc.2 + 1)

/-- The computable loop of _ensure_computable, run over the topologically
ordered dependency list. -/
def computableFold (isCached : GNode → Bool) (deps : List GNode) :
    (Nat → Bool) × Nat :=
  deps.foldl (computableStep isCached) (fun _ => false, 0)

/-- The uncached-FallbackOperation test used by the sqlite branch of
_ensure_computable through _filter_ancestors. -/
def isPendingFallback (t : GNode) : Bool :=
  !t.cachedOnSqlite && t.kind == Kind.fallbackK

/-- Translation of _ensure_computable over the topologically ordered
ancestor list deps (which, as used by core.py, contains the node itself
and its ancestors, cached or not; the ordering machinery lives in the
graph_utils module and is modelled from the specification as an input).
If any node fails the computable test, raise the unreachable error naming
the fault count; on sqlite, additionally raise the fallback error naming
the number of pending FallbackOperation ancestors when any exist. -/
def ensureComputableOn (on' : Backend) (deps : List GNode) : Except EErr Unit :=
  let faults := (computableFold (isCachedOn on') deps).2
  if 0 < faults then
    Except.error (EErr.unreachable faults)
  else if on' == Backend.sqlite then
    let fallbacks := deps.filter isPendingFallback
    if 0 < fallbacks.length then
      Except.error (EErr.fallbackBlocked fallbacks.length)
    else
      Except.ok ()
  else
    Except.ok ()

/-- Context of one compute call on a node: the offloading decision taken
by should_offload_computation, the topologically ordered dependency list
of the node for the chosen backend, the SQLite environment, and the value
the pandas evaluation of the node produces. -/
structure Ctx where
  off : Bool
  deps : List GNode
  env : SqliteEnv
  pandasVal : Table

/-- Translation of BaseFrame.compute: when an in-memory result is cached,
return it immediately with no side effects; otherwise check computability
on the chosen backend (failing before any backend action), materialize via
the SQLite or the pandas path, and return the result property of the new
state. -/
def compute (ctx : Ctx) (s : NodeState) :
    NodeState × List Action × Except EErr (Option Table) :=
  match s.cachedResult with
  | some _ => (s, [], resultOf s)
  | none =>
      if ctx.off then
        match ensureComputableOn Backend.sqlite ctx.deps with
        | Except.error e => (s, [], Except.error e)
        | Except.ok _ =>
            let p := computeSqlite ctx.env s
            (p.1, p.2, resultOf p.1)
      else
        match ensureComputableOn Backend.pandas ctx.deps with
        | Except.error e => (s, [], Except.error e)
        | Except.ok _ =>
            let p := computePandas ctx.pandasVal false s
            (p.1, p.2, resultOf p.1)

/-- Python str.join: concatenate the strings of the list separated by
sep. -/
def pyJoin (sep : String) : List String → String
  | [] => ""
  | [x] => x
  | x :: y :: xs => x ++ sep ++ pyJoin sep (y :: xs)

/-- The query fragment BaseFrame.sql produces when dependencies are not
rendered: the _sql_query of the pending update when one exists, else the
_sql_query of the node itself. -/
def sqlFragment (t : GNode) : String :=
  match t.updateQuery with
  | some q => q
  | none => t.sqlQuery

/-- Translation of _define_dependencies: over the topologically ordered
sqlite dependency list, every node other than the target that is not yet
cached on SQLite and is a DataFrame instance becomes a common table
expression name AS (fragment); the WITH clause is returned when at least
one such expression exists. -/
def defineDependencies (df : GNode) (deps : List GNode) : Option String :=
  let ctes := (deps.filter (fun t =>
      !(t.id == df.id) && !t.cachedOnSqlite && isDataFrame t)).map
    (fun t => t.name ++ " AS (" ++ sqlFragment t ++ ")")
  if 0 < ctes.length then
    some ("WITH " ++ pyJoin ", " ctes)
  else
    none

/-- Translation of BaseFrame.sql: optionally prepend the WITH clause of
_define_dependencies to the query fragment of the node, joining the pieces
with a space.  The function is a pure string-generation pass: it takes the
graph as input and returns a string, performing no engine call and
returning no modified state. -/
def sqlRender (df : GNode) (deps : List GNode) (dependencies : Bool) : String :=
  let query : List String :=
    (if dependencies then
      match defineDependencies df deps with
      | some w => [w]
      | none => []
    else []) ++ [sqlFragment df]
  pyJoin " " query

/-- Construction-time errors of the node constructors, raised synchronously
in the respective init methods, plus the ValueError and TypeError raised by
DataFrame subscripting. -/
inductive CErr where
  | projectionSchema
  | joinNoKeys
  | joinKeyArity
  | joinKeySubset
  | unionSchema
  | unionEmpty
  | valueErr
  | typeErr
deriving DecidableEq, Repr

/-- A Boolean column-subset test: every element of xs occurs in ys. -/
def subsetCols (xs ys : List String) : Bool :=
  xs.all (fun c => ys.contains c)

/-- Schema validation of Projection: the requested columns minus the
source columns must be empty, else a schema error; on success the output
columns are the requested ones in source column order.  The constructor
performs no backend call (its DataFrame super call receives no data). -/
def projectionInit (sourceCols : List String) (cols : List String) :
    Except CErr (List String) :=
  if 0 < (cols.filter (fun c => !sourceCols.contains c)).length then
    Except.error CErr.projectionSchema
  else
    Except.ok (sourceCols.filter (fun c => cols.contains c))

/-- Key validation of Join after key-argument resolution: the two key
lists must have equal length and each must be a subset of the columns of
its own source. -/
def joinCheck (cols1 cols2 leftKeys rightKeys : List String) :
    Except CErr (List String × List String) :=
  if leftKeys.length ≠ rightKeys.length then
    Except.error CErr.joinKeyArity
  else if 0 < (leftKeys.filter (fun c => !cols1.contains c)).length then
    Except.error CErr.joinKeySubset
  else if 0 < (rightKeys.filter (fun c => !cols2.contains c)).length then
    Except.error CErr.joinKeySubset
  else
    Except.ok (leftKeys, rightKeys)

/-- Key-argument resolution of Join: with no join_keys, both left and
right keys must be provided; with join_keys, they are used on both
sides. -/
def joinInit (cols1 cols2 : List String)
    (joinKeys leftKeys rightKeys : Option (List String)) :
    Except CErr (List String × List String) :=
  match joinKeys with
  | none =>
      match leftKeys, rightKeys with
      | some l, some r => joinCheck cols1 cols2 l r
      | _, _ => Except.error CErr.joinNoKeys
  | some k => joinCheck cols1 cols2 k k

/-- Symmetric difference of two column lists viewed as sets. -/
def symmetricDifference (xs ys : List String) : List String :=
  xs.filter (fun c => !ys.contains c) ++ ys.filter (fun c => !xs.contains c)

/-- Schema validation of Union: the columns are those of the first source,
and every source whose columns have a nonempty symmetric difference with
them raises a schema error.  An empty source list fails when the first
element is accessed. -/
def unionInit (colss : List (List String)) : Except CErr (List String) :=
  match colss with
  | [] => Except.error CErr.unionEmpty
  | c0 :: _ =>
      if colss.any (fun cs => 0 < (symmetricDifference cs c0).length) then
        Except.error CErr.unionSchema
      else
        Except.ok c0

/-- Construction of a base DataFrame from provided data, returning the
columns the node records, the relational-cache flag, and the backend
actions the constructor itself performs.  Translation of
DataFrame.init: when data is provided and nonempty, the columns are
taken from the data and, when offload is set, the rows are bulk-loaded
into SQLite at construction time; with no (nonempty) data the columns
stay empty and the relational flag follows loaded_on_sqlite. -/
def dataFrameInit (dataCols : List String) (nrows : Nat)
    (hasData offload loadedOnSqlite : Bool) :
    List String × Bool × List Action :=
  if hasData && decide (0 < nrows) then
    if offload then (dataCols, true, [Action.bulkLoad])
    else (dataCols, false, [])
  else
    if loadedOnSqlite then ([], true, []) else ([], false, [])

/-- Construction of a Projection node paired with the backend actions the
constructor performs: none, since its DataFrame super call receives no
data and therefore issues no engine call. -/
def projectionNode (sourceCols : List String) (cols : List String) :
    Except CErr (List String × List Action) :=
  match projectionInit sourceCols cols with
  | Except.error e => Except.error e
  | Except.ok cs => Except.ok (cs, [])

/-- Argument shapes accepted by DataFrame subscripting: a column name, a
list of column names, a Criterion, a slice with optional start, stop and
step, or a value of any other type. -/
inductive IndexArg where
  | strCol (s : String)
  | listCols (l : List String)
  | criterionArg
  | sliceArg (start stop step : Option Int)
  | otherArg
deriving DecidableEq, Repr

/-- Result of DataFrame subscripting: a Projection with the given output
columns, a Selection, the very same node object (no new node), or a Limit
node with the given bound. -/
inductive GetItemRes where
  | projectionOf (cols : List String)
  | selectionOf
  | sameNode
  | limitOf (n : Int)
deriving DecidableEq, Repr

/-- Translation of DataFrame.getitem over the columns of the frame:
a string or list builds a Projection (validated against the columns), a
Criterion builds a Selection, a slice with a non-None start or step raises
ValueError, the full slice returns the same node, a slice with a stop
builds a Limit with that bound, and any other argument type raises
TypeError. -/
def getItem (sourceCols : List String) (x : IndexArg) :
    Except CErr GetItemRes :=
  match x with
  | IndexArg.strCol s =>
      (projectionInit sourceCols [s]).map (fun cs => GetItemRes.projectionOf cs)
  | IndexArg.listCols l =>
      (projectionInit sourceCols l).map (fun cs => GetItemRes.projectionOf cs)
  | IndexArg.criterionArg => Except.ok GetItemRes.selectionOf
  | IndexArg.sliceArg start stop step =>
      if start.isSome || step.isSome then
        Except.error CErr.valueErr
      else
        match stop with
        | none => Except.ok GetItemRes.sameNode
        | some n => Except.ok (GetItemRes.limitOf n)
  | IndexArg.otherArg => Except.error CErr.typeErr

/-- Node kinds needed to model the column-assignment rewiring of
DataFrame.setitem: base tables carrying rows, and Union nodes whose
pandas evaluation concatenates the results of their sources in source
order (pd.concat over self.sources). -/
inductive PKind where
  | baseP
  | unionP
deriving DecidableEq, Repr

/-- Arena node for the mutation-record model: name, ordered source ids,
base rows, kind, the recorded dependent ids (appended by each constructor
that lists this node among its sources), and the pending update record
(predecessor id and assigned column) when one exists. -/
structure PNode where
  name : String
  sources : List Nat
  data : List Int
  kind : PKind
  dependents : List Nat
  update : Option (Nat × String)
deriving DecidableEq, Repr

/-- The node arena: ids are list positions. -/
abbrev Arena := List PNode

/-- Rewiring of one dependent during setitem: its sources list has the
assigned id removed and the predecessor id appended at the end
(dependent.sources.remove(self) followed by
dependent.sources.append(old)). -/
def rewireDependent (st : Arena) (d selfId oldId : Nat) : Arena :=
  match st[d]? with
  | none => st
  | some n => st.set d { n with sources := (n.sources.erase selfId) ++ [oldId] }

/-- Translation of DataFrame.setitem for node selfId: the current state of
the node is duplicated into a frozen predecessor (a fresh id at the end of
the arena), every recorded dependent is rewired from the live node to the
predecessor by remove-and-append, and the live id is replaced by a fresh
node that depends on the predecessor and records the pending column
update; the fresh node also registers itself as a dependent of the
predecessor. -/
def setItem (st : Arena) (selfId : Nat) (col : String) (newName : String) :
    Arena :=
  match st[selfId]? with
  | none => st
  | some selfN =>
      let oldId := st.length
      let st1 := selfN.dependents.foldl
        (fun acc d => rewireDependent acc d selfId oldId) st
      let oldN : PNode := { selfN with dependents := selfN.dependents ++ [selfId] }
      let newN : PNode :=
        { name := newName, sources := [oldId], data := [], kind := PKind.baseP,
          dependents := [], update := some (oldId, col) }
      (st1 ++ [oldN]).set selfId newN

/-- Fuel-bounded pandas evaluation over the arena: a base node evaluates
to its rows, a Union node concatenates the evaluations of its sources in
source order. -/
def evalNode (st : Arena) : Nat → Nat → List Int
  | 0, _ => []
  | fuel + 1, i =>
      match st[i]? with
      | none => []
      | some n =>
          match n.kind with
          | PKind.baseP => n.data
          | PKind.unionP => (n.sources.map (fun s => evalNode st fuel s)).flatten

/-! Concrete instances used to evaluate the definitions on closed inputs. -/

/-- Claim-following computability predicate, written from the words of the
specification: a node is computable if it is already materialized on the
backend or all of its sources are computable (with respect to the map m of
nodes already processed). -/
def specComputableClaim (isCached : GNode → Bool) (m : Nat → Bool)
    (dep : GNode) : Prop :=
  isCached dep = true ∨ ∀ sid ∈ dep.sources, m sid = true

/-- Exclusion test of the claim: GroupBy container nodes and Criterion
nodes. -/
def isGroupByContainerOrCriterion (t : GNode) : Bool :=
  match t.kind with
  | Kind.groupByK => true
  | Kind.groupByProjectionK => true
  | Kind.criterionK => true
  | _ => false

/-- Claim-following list of CTE ancestors: every not-yet-relationally-cached
node of the dependency order except the target itself, GroupBy container
nodes, and Criterion nodes. -/
def cteAncestorsSpec (df : GNode) (deps : List GNode) : List GNode :=
  deps.filter (fun t => !(t.id == df.id) && !t.cachedOnSqlite &&
    !(isGroupByContainerOrCriterion t))

/-- A base DataFrame node with no sources and no cache on either backend. -/
def orphanNode : GNode :=
  { id := 0, name := "T0", sources := [], kind := Kind.base,
    cachedResult := false, cachedOnSqlite := false, sqlQuery := "",
    updateQuery := none }

/-- Node state of a frame with nothing cached anywhere. -/
def uncachedState : NodeState :=
  { cachedResult := none, cachedOnSqlite := false, computedOnPandas := false,
    outOfMemory := false, processResult := none, columns := [] }

/-- Compute context whose dependency list is the single orphan node. -/
def orphanCtx : Ctx :=
  { off := true, deps := [orphanNode],
    env := { estimate := 1, freeMem := 10, tableData := [], tableCols := [] },
    pandasVal := [] }

/-- Environment in which the created table would not fit in memory. -/
def oomEnv : SqliteEnv :=
  { estimate := 100, freeMem := 10, tableData := [1], tableCols := ["a"] }

/-- Node state of a frame whose table exists on SQLite, whose result did
not fit in memory on an earlier compute call, and which has no in-memory
result. -/
def oomRetryState : NodeState :=
  { cachedResult := none, cachedOnSqlite := true, computedOnPandas := false,
    outOfMemory := true, processResult := none, columns := [] }

/-- Compute context of a retry after memory has been freed: the estimate
now fits, the graph is trivially computable. -/
def oomRetryCtx : Ctx :=
  { off := true, deps := [],
    env := { estimate := 5, freeMem := 10, tableData := [7], tableCols := ["a"] },
    pandasVal := [] }

/-- Compute context for a successful sqlite materialization. -/
def idemCtx : Ctx :=
  { off := true, deps := [],
    env := { estimate := 3, freeMem := 50, tableData := [5, 6], tableCols := ["a"] },
    pandasVal := [] }

/-- Node state after idemCtx materializes uncachedState on sqlite. -/
def idemAfter : NodeState :=
  { cachedResult := some [5, 6], cachedOnSqlite := true,
    computedOnPandas := false, outOfMemory := false, processResult := none,
    columns := ["a"] }

/-- A base node already materialized on SQLite. -/
def cachedBaseNode : GNode :=
  { id := 0, name := "T0", sources := [], kind := Kind.base,
    cachedResult := false, cachedOnSqlite := true,
    sqlQuery := "SELECT * FROM T0", updateQuery := none }

/-- An uncached FallbackOperation node over the cached base node. -/
def pendingFallbackNode : GNode :=
  { id := 1, name := "T1", sources := [0], kind := Kind.fallbackK,
    cachedResult := false, cachedOnSqlite := false, sqlQuery := "",
    updateQuery := none }

/-- Compute context whose sqlite dependency list contains the pending
fallback operation. -/
def fallbackCtx : Ctx :=
  { off := true, deps := [cachedBaseNode, pendingFallbackNode],
    env := { estimate := 1, freeMem := 10, tableData := [], tableCols := [] },
    pandasVal := [] }

/-- An uncached Projection ancestor for the SQL rendering instance. -/
def cteDepNode : GNode :=
  { id := 1, name := "T1", sources := [0], kind := Kind.projectionK,
    cachedResult := false, cachedOnSqlite := false,
    sqlQuery := "SELECT a FROM T0", updateQuery := none }

/-- An uncached GroupBy container ancestor for the SQL rendering
instance. -/
def cteGroupByNode : GNode :=
  { id := 2, name := "T2", sources := [1], kind := Kind.groupByK,
    cachedResult := false, cachedOnSqlite := false, sqlQuery := "",
    updateQuery := none }

/-- The Aggregator target node of the SQL rendering instance. -/
def cteTargetNode : GNode :=
  { id := 3, name := "T3", sources := [2], kind := Kind.aggregatorK,
    cachedResult := false, cachedOnSqlite := false,
    sqlQuery := "SELECT SUM(a) AS a FROM T1 GROUP BY a", updateQuery := none }

/-- Topologically ordered sqlite dependency list of the SQL rendering
instance: a cached base table, an uncached projection, a GroupBy container
and the aggregator target. -/
def cteDeps : List GNode :=
  [cachedBaseNode, cteDepNode, cteGroupByNode, cteTargetNode]

/-- Base table A with rows 1 and 2; its recorded dependent is the Union
node with id 2. -/
def mutNodeA : PNode :=
  { name := "A", sources := [], data := [1, 2], kind := PKind.baseP,
    dependents := [2], update := none }

/-- Base table B with row 10; its recorded dependent is the Union node
with id 2. -/
def mutNodeB : PNode :=
  { name := "B", sources := [], data := [10], kind := PKind.baseP,
    dependents := [2], update := none }

/-- Union node built before the assignment, concatenating A then B. -/
def mutNodeU : PNode :=
  { name := "U", sources := [0, 1], data := [], kind := PKind.unionP,
    dependents := [], update := none }

/-- Arena of the mutation instance: A at id 0, B at id 1, the Union at
id 2. -/
def mutArena : Arena := [mutNodeA, mutNodeB, mutNodeU]

/-! Helper lemmas about the execution engine. -/

/-- Compute on a node with an in-memory cached result returns immediately
with no side effects. -/
theorem compute_cache_hit (ctx : Ctx) (s : NodeState)
    (h : s.cachedResult.isSome = true) :
    compute ctx s = (s, [], resultOf s) := by
  rcases hs : s.cachedResult with _ | r
  · rw [hs] at h
    simp at h
  · unfold compute
    rw [hs]

/-- Shape of an uncached compute on the sqlite path when the
computability check fails. -/
theorem compute_uncached_sqlite_err (ctx : Ctx) (s : NodeState) (e : EErr)
    (hs : s.cachedResult = none) (hoff : ctx.off = true)
    (he : ensureComputableOn Backend.sqlite ctx.deps = Except.error e) :
    compute ctx s = (s, [], Except.error e) := by
  unfold compute
  rw [hs, hoff, he]
  rfl

/-- Shape of an uncached compute on the sqlite path when the
computability check passes. -/
theorem compute_uncached_sqlite_ok (ctx : Ctx) (s : NodeState) (u : Unit)
    (hs : s.cachedResult = none) (hoff : ctx.off = true)
    (he : ensureComputableOn Backend.sqlite ctx.deps = Except.ok u) :
    compute ctx s =
      ((computeSqlite ctx.env s).1, (computeSqlite ctx.env s).2,
        resultOf (computeSqlite ctx.env s).1) := by
  unfold compute
  rw [hs, hoff, he]
  rfl

/-- Shape of an uncached compute on the pandas path when the
computability check fails. -/
theorem compute_uncached_pandas_err (ctx : Ctx) (s : NodeState) (e : EErr)
    (hs : s.cachedResult = none) (hoff : ctx.off = false)
    (he : ensureComputableOn Backend.pandas ctx.deps = Except.error e) :
    compute ctx s = (s, [], Except.error e) := by
  unfold compute
  rw [hs, hoff, he]
  rfl

/-- Shape of an uncached compute on the pandas path when the
computability check passes. -/
theorem compute_uncached_pandas_ok (ctx : Ctx) (s : NodeState) (u : Unit)
    (hs : s.cachedResult = none) (hoff : ctx.off = false)
    (he : ensureComputableOn Backend.pandas ctx.deps = Except.ok u) :
    compute ctx s =
      ((computePandas ctx.pandasVal false s).1, (computePandas ctx.pandasVal false s).2,
        resultOf (computePandas ctx.pandasVal false s).1) := by
  unfold compute
  rw [hs, hoff, he]
  rfl

/-- A sqlite materialization of a node with no cached result either ends
out of memory with still no cached result, or caches the read-back
rows. -/
theorem computeSqlite_uncached_cases (env : SqliteEnv) (s : NodeState)
    (hr : s.cachedResult = none) :
    ((computeSqlite env s).1.cachedResult = none ∧
      (computeSqlite env s).1.outOfMemory = true) ∨
    (computeSqlite env s).1.cachedResult = some env.tableData := by
  unfold computeSqlite computeSqliteRead
  cases hc : s.cachedOnSqlite <;> simp [hr] <;> by_cases hm : env.freeMem < env.estimate <;>
    simp [hm]

/-- A successful compute call leaves a cached in-memory result whose
result property is the returned value. -/
theorem compute_ok_leaves_cache (ctx : Ctx) (s s1 : NodeState)
    (acts : List Action) (v : Option Table)
    (h : compute ctx s = (s1, acts, Except.ok v)) :
    resultOf s1 = Except.ok v ∧ s1.cachedResult.isSome = true := by
  rcases hs : s.cachedResult with _ | r
  · cases hoff : ctx.off
    · rcases he : ensureComputableOn Backend.pandas ctx.deps with e | u
      · rw [compute_uncached_pandas_err ctx s e hs hoff he] at h
        simp at h
      · rw [compute_uncached_pandas_ok ctx s u hs hoff he] at h
        simp only [Prod.mk.injEq] at h
        obtain ⟨h1, _, h3⟩ := h
        subst h1
        refine ⟨h3, ?_⟩
        unfold computePandas
        rw [hs]
        simp
    · rcases he : ensureComputableOn Backend.sqlite ctx.deps with e | u
      · rw [compute_uncached_sqlite_err ctx s e hs hoff he] at h
        simp at h
      · rw [compute_uncached_sqlite_ok ctx s u hs hoff he] at h
        simp only [Prod.mk.injEq] at h
        obtain ⟨h1, _, h3⟩ := h
        rcases computeSqlite_uncached_cases ctx.env s hs with ⟨hn, ho⟩ | hsome
        · have hbad : resultOf (computeSqlite ctx.env s).1 =
              Except.error EErr.memoryError := by
            unfold resultOf
            rw [hn, ho]
            simp
          rw [hbad] at h3
          simp at h3
        · subst h1
          refine ⟨h3, ?_⟩
          rw [hsome]
          rfl
  · rw [compute_cache_hit ctx s (by rw [hs]; rfl)] at h
    simp only [Prod.mk.injEq] at h
    obtain ⟨h1, _, h3⟩ := h
    subst h1
    exact ⟨h3, by rw [hs]; rfl⟩

/-- Compute never issues a CREATE TABLE for a node whose table already
exists on the relational engine. -/
theorem compute_no_create_when_cached (ctx : Ctx) (s : NodeState)
    (hc : s.cachedOnSqlite = true) :
    Action.createTable ∉ (compute ctx s).2.1 := by
  rcases hs : s.cachedResult with _ | r
  · cases hoff : ctx.off
    · rcases he : ensureComputableOn Backend.pandas ctx.deps with e | u
      · rw [compute_uncached_pandas_err ctx s e hs hoff he]
        simp
      · rw [compute_uncached_pandas_ok ctx s u hs hoff he]
        unfold computePandas
        rw [hs]
        simp
    · rcases he : ensureComputableOn Backend.sqlite ctx.deps with e | u
      · rw [compute_uncached_sqlite_err ctx s e hs hoff he]
        simp
      · rw [compute_uncached_sqlite_ok ctx s u hs hoff he]
        unfold computeSqlite computeSqliteRead
        rw [hc, hs]
        by_cases hm : ctx.env.freeMem < ctx.env.estimate <;> simp [hm]
  · rw [compute_cache_hit ctx s (by rw [hs]; rfl)]
    simp

/-! Claim C1. -/

/-- C1: for a node whose first compute call succeeds, a second compute
call returns the identical result with no further backend-materializing
actions (it is served from the in-memory cache), and a compute call on a
node already cached on the relational engine never issues a second CREATE
TABLE statement. -/
theorem compute_second_call_from_cache (ctx ctx2 : Ctx) (s s1 : NodeState)
    (acts : List Action) (v : Option Table)
    (h : compute ctx s = (s1, acts, Except.ok v)) :
    compute ctx2 s1 = (s1, [], Except.ok v) ∧
    (s.cachedOnSqlite = true → Action.createTable ∉ acts) := by
  obtain ⟨hres, hsome⟩ := compute_ok_leaves_cache ctx s s1 acts v h
  constructor
  · rw [compute_cache_hit ctx2 s1 hsome, hres]
  · intro hc
    have hnc := compute_no_create_when_cached ctx s hc
    rw [h] at hnc
    exact hnc

/-- Witness for C1: a concrete uncached node is materialized on sqlite by
the first call (CREATE TABLE then read-back) and the second call returns
the identical result from the cache with no actions. -/
theorem compute_second_call_from_cache_witness :
    compute idemCtx uncachedState =
      (idemAfter, [Action.createTable, Action.readTable], Except.ok (some [5, 6])) ∧
    compute idemCtx idemAfter = (idemAfter, [], Except.ok (some [5, 6])) :=
  ⟨rfl,
    (compute_second_call_from_cache idemCtx idemCtx uncachedState idemAfter
      [Action.createTable, Action.readTable] (some [5, 6]) rfl).1⟩

/-! Claim C3. -/

/-- C3: when the estimated in-memory footprint of a freshly materialized
relational result exceeds available memory, the engine sets the
out-of-memory flag, caches nothing in memory, performs no read-back, a
direct read of the result raises the result-too-large MemoryError, and the
node stays cached on the relational engine so it remains usable as a
relational dependency. -/
theorem compute_sqlite_out_of_memory_guard (env : SqliteEnv) (s : NodeState)
    (h1 : env.freeMem < env.estimate) (h2 : s.cachedResult = none) :
    (computeSqlite env s).1.outOfMemory = true ∧
    (computeSqlite env s).1.cachedResult = none ∧
    Action.readTable ∉ (computeSqlite env s).2 ∧
    resultOf (computeSqlite env s).1 = Except.error EErr.memoryError ∧
    (computeSqlite env s).1.cachedOnSqlite = true := by
  unfold computeSqlite computeSqliteRead
  cases hc : s.cachedOnSqlite <;> simp [h2, h1, resultOf]

/-- Witness for C3: with the concrete too-small free memory, materializing
the uncached node sets the flag and raises on a direct read. -/
theorem compute_sqlite_out_of_memory_guard_witness :
    oomEnv.freeMem < oomEnv.estimate ∧
    resultOf (computeSqlite oomEnv uncachedState).1 =
      Except.error EErr.memoryError ∧
    (computeSqlite oomEnv uncachedState).1.cachedOnSqlite = true :=
  ⟨by decide,
    (compute_sqlite_out_of_memory_guard oomEnv uncachedState (by decide) rfl).2.2.2.1,
    (compute_sqlite_out_of_memory_guard oomEnv uncachedState (by decide) rfl).2.2.2.2⟩

/-! Claim C4. -/

/-- C4 counterexample: the out-of-memory flag is not sticky in the sense
of the claim.  A node whose earlier sqlite compute ended out of memory
(flag set, table on SQLite, no in-memory result) is recomputed after
memory is freed: the engine re-estimates and pulls the rows into memory
(a read-back action is issued and a result is cached), even though the
flag was set. -/
theorem out_of_memory_not_sticky_counterexample :
    oomRetryState.outOfMemory = true ∧
    Action.readTable ∈ (compute oomRetryCtx oomRetryState).2.1 ∧
    (compute oomRetryCtx oomRetryState).1.cachedResult = some [7] := by
  refine ⟨rfl, ?_, rfl⟩
  simp [compute, oomRetryCtx, oomRetryState, ensureComputableOn, computableFold,
    computeSqlite, computeSqliteRead]

/-- C4 amended: the out-of-memory flag is sticky in value only.  A sqlite
materialization never clears the flag (it stays set, and is newly set
exactly when an uncached result does not fit), but the flag does not stop
later pull attempts: a read-back into memory is issued exactly when no
in-memory result is cached and the fresh estimate fits in free memory,
regardless of the flag. -/
theorem out_of_memory_flag_semantics (env : SqliteEnv) (s : NodeState) :
    ((computeSqlite env s).1.outOfMemory
      = (s.outOfMemory || (s.cachedResult.isNone &&
          decide (env.freeMem < env.estimate)))) ∧
    (Action.readTable ∈ (computeSqlite env s).2
      ↔ (s.cachedResult.isNone && !decide (env.freeMem < env.estimate)) = true) := by
  unfold computeSqlite computeSqliteRead
  cases hc : s.cachedOnSqlite <;> rcases hr : s.cachedResult with _ | r <;>
    by_cases hm : env.freeMem < env.estimate <;> simp [hr, hm]

/-! Claim C2. -/

/-- C2 counterexample: the claimed characterization of computability is
false on the code.  An uncached base node with no sources satisfies the
claim-following predicate (all of its zero sources are computable,
vacuously), yet the computable loop marks it not computable and computing
it on sqlite fails with one failing dependency. -/
theorem ensure_computable_claim_counterexample :
    specComputableClaim (isCachedOn Backend.sqlite) (fun _ => false) orphanNode ∧
    (computableFold (isCachedOn Backend.sqlite) [orphanNode]).1 orphanNode.id = false ∧
    ensureComputableOn Backend.sqlite [orphanNode] =
      Except.error (EErr.unreachable 1) := by
  refine ⟨Or.inr ?_, rfl, rfl⟩
  intro sid hsid
  simp [orphanNode] at hsid

/-- C2 amended: a node of the dependency order is marked computable by
the loop iff it is already materialized on the backend, or it has at
least one source and all of its sources were marked computable; when any
node fails this test, the check fails with the unreachable error naming
exactly the number of failing dependencies, and compute propagates that
error before issuing any backend action. -/
theorem ensure_computable_amended (on' : Backend) (deps : List GNode)
    (d : GNode) (n : Nat) (ctx : Ctx) (s : NodeState) (e : EErr) :
    ((computableFold (isCachedOn on') (deps ++ [d])).1 d.id
      = (isCachedOn on' d ||
          (!d.sources.isEmpty &&
            d.sources.all (computableFold (isCachedOn on') deps).1))) ∧
    (ensureComputableOn on' deps = Except.error (EErr.unreachable n) ↔
      n = (computableFold (isCachedOn on') deps).2 ∧ 0 < n) ∧
    (s.cachedResult = none → ctx.off = true →
      ensureComputableOn Backend.sqlite ctx.deps = Except.error e →
      compute ctx s = (s, [], Except.error e)) ∧
    (s.cachedResult = none → ctx.off = false →
      ensureComputableOn Backend.pandas ctx.deps = Except.error e →
      compute ctx s = (s, [], Except.error e)) := by
  refine ⟨?_, ?_, ?_, ?_⟩
  · rw [computableFold, List.foldl_append]
    simp [computableStep, computableFold]
  · unfold ensureComputableOn
    by_cases hf : 0 < (computableFold (isCachedOn on') deps).2
    · rw [if_pos hf]
      constructor
      · intro hh
        have := Except.error.inj hh
        have hn := EErr.unreachable.inj this
        exact ⟨hn.symm, hn ▸ hf⟩
      · intro ⟨hn, _⟩
        rw [hn]
    · rw [if_neg hf]
      constructor
      · intro hh
        cases hon : on' == Backend.sqlite
        · rw [hon] at hh
          simp at hh
        · rw [hon] at hh
          simp only [if_true] at hh
          by_cases hl : 0 < (deps.filter isPendingFallback).length
          · rw [if_pos hl] at hh
            exact absurd (Except.error.inj hh) (by simp)
          · rw [if_neg hl] at hh
            simp at hh
      · intro ⟨hn, hpos⟩
        rw [hn] at hpos
        exact absurd hpos hf
  · intro hs hoff he
    exact compute_uncached_sqlite_err ctx s e hs hoff he
  · intro hs hoff he
    exact compute_uncached_pandas_err ctx s e hs hoff he

/-- Witness for C2 amended: on the concrete one-node graph, the node is
marked not computable (it is uncached with no sources), the check fails
naming one failing dependency, and compute propagates the error with no
actions. -/
theorem ensure_computable_amended_witness :
    (computableFold (isCachedOn Backend.sqlite) ([] ++ [orphanNode])).1 orphanNode.id
      = false ∧
    (ensureComputableOn Backend.sqlite [orphanNode] =
      Except.error (EErr.unreachable 1) ↔
      1 = (computableFold (isCachedOn Backend.sqlite) [orphanNode]).2 ∧ 0 < 1) ∧
    compute orphanCtx uncachedState =
      (uncachedState, [], Except.error (EErr.unreachable 1)) := by
  have h := ensure_computable_amended Backend.sqlite [] orphanNode 1 orphanCtx
    uncachedState (EErr.unreachable 1)
  have h2 := ensure_computable_amended Backend.sqlite [orphanNode] orphanNode 1
    orphanCtx uncachedState (EErr.unreachable 1)
  refine ⟨?_, h2.2.1, h.2.2.1 rfl rfl rfl⟩
  rw [h.1]
  rfl

/-! Claim C7. -/

/-- C7: when the dependency order of a node contains an uncached
FallbackOperation, computability on sqlite always fails; when every other
ancestor passes the computable test (no faults), the error is the
fallback error naming exactly the number of pending fallback-only
operations; and compute on the sqlite path propagates the failure with no
backend action issued. -/
theorem fallback_blocks_sqlite (deps : List GNode) (t : GNode) (ctx : Ctx)
    (s : NodeState)
    (ht : t ∈ deps) (hc : t.cachedOnSqlite = false)
    (hk : t.kind = Kind.fallbackK) :
    (∃ e, ensureComputableOn Backend.sqlite deps = Except.error e) ∧
    ((computableFold (isCachedOn Backend.sqlite) deps).2 = 0 →
      ensureComputableOn Backend.sqlite deps =
        Except.error
          (EErr.fallbackBlocked (deps.filter isPendingFallback).length)) ∧
    (ctx.deps = deps → ctx.off = true → s.cachedResult = none →
      ∃ e, compute ctx s = (s, [], Except.error e)) := by
  have hmem : t ∈ deps.filter isPendingFallback := by
    rw [List.mem_filter]
    refine ⟨ht, ?_⟩
    unfold isPendingFallback
    rw [hc, hk]
    rfl
  have hlen : 0 < (deps.filter isPendingFallback).length :=
    List.length_pos.mpr (List.ne_nil_of_mem hmem)
  have herr : ∃ e, ensureComputableOn Backend.sqlite deps = Except.error e := by
    unfold ensureComputableOn
    by_cases hf : 0 < (computableFold (isCachedOn Backend.sqlite) deps).2
    · rw [if_pos hf]
      exact ⟨_, rfl⟩
    · rw [if_neg hf]
      simp only [if_true]
      rw [if_pos hlen]
      exact ⟨_, rfl⟩
  refine ⟨herr, ?_, ?_⟩
  · intro hzero
    unfold ensureComputableOn
    rw [hzero]
    simp only [if_true]
    rw [if_pos hlen]
    simp
  · intro hd hoff hs
    obtain ⟨e, he⟩ := herr
    rw [← hd] at he
    exact ⟨e, compute_uncached_sqlite_err ctx s e hs hoff he⟩

/-- Witness for C7: the concrete graph of a cached base table with an
uncached fallback operation over it has no computable faults, yet sqlite
computation fails with the fallback error naming one pending operation,
and compute propagates it with no actions. -/
theorem fallback_blocks_sqlite_witness :
    ensureComputableOn Backend.sqlite [cachedBaseNode, pendingFallbackNode] =
      Except.error (EErr.fallbackBlocked 1) ∧
    compute fallbackCtx uncachedState =
      (uncachedState, [], Except.error (EErr.fallbackBlocked 1)) := by
  have h := fallback_blocks_sqlite [cachedBaseNode, pendingFallbackNode]
    pendingFallbackNode fallbackCtx uncachedState
    (by simp) rfl rfl
  have h1 := h.2.1 rfl
  exact ⟨h1, compute_uncached_sqlite_err fallbackCtx uncachedState _ rfl rfl h1⟩

/-! Claim C6. -/

/-- C6: rendering the SQL of a node with dependencies yields its own
query fragment, preceded (joined by a space) by a WITH clause exactly
when the dependency order contains not-yet-relationally-cached ancestors
other than the node itself, GroupBy container nodes and Criterion nodes;
the WITH clause lists those ancestors in dependency order, each as
name AS (fragment rendered without a WITH prefix).  The hypothesis that
no Constant node occurs in the dependency order holds for every sqlite
dependency graph, since Constant nodes are only reachable through
Criterion nodes, which live in pandas_sources.  Rendering is a pure
function of the graph: it returns only a string, so it performs no engine
call and leaves every node state unchanged. -/
theorem sql_render_structure (df : GNode) (deps : List GNode)
    (hconst : ∀ t ∈ deps, t.kind ≠ Kind.constantK) :
    sqlRender df deps true =
      (if cteAncestorsSpec df deps = [] then sqlFragment df
       else
        "WITH " ++
          pyJoin ", " ((cteAncestorsSpec df deps).map
            (fun t => t.name ++ " AS (" ++ sqlFragment t ++ ")")) ++
          " " ++ sqlFragment df) := by
  have hfil : deps.filter
      (fun t => !(t.id == df.id) && !t.cachedOnSqlite && isDataFrame t)
      = cteAncestorsSpec df deps := by
    unfold cteAncestorsSpec
    refine List.filter_congr ?_
    intro t ht
    have hcnot := hconst t ht
    cases hk : t.kind <;>
      first
        | exact absurd hk hcnot
        | simp [isDataFrame, isGroupByContainerOrCriterion, hk]
  unfold sqlRender defineDependencies
  rw [hfil]
  by_cases hl : cteAncestorsSpec df deps = []
  · rw [if_pos hl, hl]
    simp [pyJoin]
  · rw [if_neg hl]
    have hlen : 0 < ((cteAncestorsSpec df deps).map
        (fun t => t.name ++ " AS (" ++ sqlFragment t ++ ")")).length := by
      simp [List.length_pos, hl]
    simp only [if_pos hlen, if_true]
    simp [pyJoin]

/-- Witness for C6: on the concrete dependency order of an aggregator
over a grouping of a projection of a cached base table, the WITH clause
contains exactly the uncached projection, and the rendered SQL matches
the claimed shape. -/
theorem sql_render_structure_witness :
    sqlRender cteTargetNode cteDeps true =
      "WITH T1 AS (SELECT a FROM T0) SELECT SUM(a) AS a FROM T1 GROUP BY a" ∧
    cteAncestorsSpec cteTargetNode cteDeps = [cteDepNode] := by
  have h := sql_render_structure cteTargetNode cteDeps (by decide)
  have hspec : cteAncestorsSpec cteTargetNode cteDeps = [cteDepNode] := by decide
  constructor
  · rw [h, hspec]
    rfl
  · exact hspec

/-! Claim C5. -/

/-- C5: evaluation of the code at the failing input.  A Union node built
before a column assignment to its first source does not observe its
pre-assignment result when recomputed: the assignment rewires the
dependent by removing the assigned node from its sources and appending
the frozen predecessor at the end, so the source order of the dependent
changes from (A, B) to (B, old A) and the concatenation it recomputes
changes from rows 1, 2, 10 to rows 10, 1, 2 — the prior dependents
result is retroactively changed, contradicting the claim. -/
theorem setitem_reorders_dependent_sources :
    evalNode mutArena 2 2 = [1, 2, 10] ∧
    (setItem mutArena 0 "c" "T9")[2]?.map PNode.sources = some [1, 3] ∧
    evalNode (setItem mutArena 0 "c" "T9") 2 2 = [10, 1, 2] ∧
    evalNode (setItem mutArena 0 "c" "T9") 2 2 ≠ evalNode mutArena 2 2 := by
  decide

/-! Claim C8. -/

/-- C8: malformed graph construction is rejected at node-build time.
Constructing a Projection whose columns are not a subset of the source
columns fails with the schema error; constructing a Join whose key lists
have different lengths, or whose left or right keys are not a subset of
the respective source columns, fails with an error; constructing a Union
over sources whose column sets have a nonempty symmetric difference with
the first source fails with the schema error. -/
theorem construction_validation :
    (∀ sc cols : List String, subsetCols cols sc = false →
      projectionInit sc cols = Except.error CErr.projectionSchema) ∧
    (∀ c1 c2 l r : List String, l.length ≠ r.length →
      joinInit c1 c2 none (some l) (some r) = Except.error CErr.joinKeyArity) ∧
    (∀ c1 c2 l r : List String, l.length = r.length →
      (subsetCols l c1 = false ∨ subsetCols r c2 = false) →
      joinInit c1 c2 none (some l) (some r) = Except.error CErr.joinKeySubset) ∧
    (∀ (c0 : List String) (rest : List (List String)),
      (∃ cs ∈ c0 :: rest, symmetricDifference cs c0 ≠ []) →
      unionInit (c0 :: rest) = Except.error CErr.unionSchema) := by
  have hsub : ∀ xs ys : List String, subsetCols xs ys = false →
      0 < (xs.filter (fun c => !ys.contains c)).length := by
    intro xs ys hx
    unfold subsetCols at hx
    rw [List.all_eq_false] at hx
    obtain ⟨c, hc, hcp⟩ := hx
    refine List.length_pos.mpr (List.ne_nil_of_mem (List.mem_filter.mpr ⟨hc, ?_⟩))
    simp only [Bool.not_eq_true] at hcp ⊢
    rw [hcp]
    rfl
  refine ⟨?_, ?_, ?_, ?_⟩
  · intro sc cols hc
    unfold projectionInit
    rw [if_pos (hsub cols sc hc)]
  · intro c1 c2 l r hlen
    simp only [joinInit, joinCheck]
    rw [if_pos hlen]
  · intro c1 c2 l r hlen hbad
    simp only [joinInit, joinCheck]
    rw [if_neg (by rw [hlen]; exact fun hh => hh rfl)]
    rcases hbad with hb | hb
    · rw [if_pos (hsub l c1 hb)]
    · by_cases hfl : 0 < (l.filter (fun c => !c1.contains c)).length
      · rw [if_pos hfl]
      · rw [if_neg hfl, if_pos (hsub r c2 hb)]
  · intro c0 rest hex
    simp only [unionInit]
    rw [if_pos ?_]
    rw [List.any_eq_true]
    obtain ⟨cs, hmem, hne⟩ := hex
    refine ⟨cs, hmem, ?_⟩
    rw [decide_eq_true_eq, List.length_pos]
    exact hne

/-- Witness for C8: each validation fires on a concrete malformed
construction. -/
theorem construction_validation_witness :
    projectionInit ["a", "b"] ["z"] = Except.error CErr.projectionSchema ∧
    joinInit ["a"] ["b"] none (some ["a", "a"]) (some ["b"]) =
      Except.error CErr.joinKeyArity ∧
    joinInit ["a"] ["b"] none (some ["z"]) (some ["b"]) =
      Except.error CErr.joinKeySubset ∧
    unionInit [["a"], ["b"]] = Except.error CErr.unionSchema :=
  ⟨construction_validation.1 ["a", "b"] ["z"] (by decide),
    construction_validation.2.1 ["a"] ["b"] ["a", "a"] ["b"] (by decide),
    construction_validation.2.2.1 ["a"] ["b"] ["z"] ["b"] rfl
      (Or.inl (by decide)),
    construction_validation.2.2.2 ["a"] [["b"]]
      ⟨["b"], by decide, by decide⟩⟩

/-! Claim C9. -/

/-- C9 counterexample: constructing a base DataFrame from nonempty
in-memory rows with offloading enabled (the default) issues a bulk load
into the relational engine at construction time, so construction is not
free of relational-engine side effects as the claim states. -/
theorem dataframe_construction_io_counterexample :
    (dataFrameInit ["a"] 1 true true false).2.2 = [Action.bulkLoad] ∧
    ¬(dataFrameInit ["a"] 1 true true false).2.2 = [] := by
  decide

/-- C9 amended: constructing a derived node such as a Projection performs
no backend action and fully determines its columns from the source
schema; constructing a base DataFrame from provided data determines its
columns from the data without executing any query, but bulk-loads the
rows into the relational engine exactly when the data is nonempty and
offloading is enabled. -/
theorem construction_determines_columns (sc cols : List String)
    (r : List String × List Action) (dc : List String) (n : Nat)
    (off ld : Bool)
    (h : projectionNode sc cols = Except.ok r) :
    r.2 = [] ∧ r.1 = sc.filter (fun c => cols.contains c) ∧
    (dataFrameInit dc n true off ld).1 = (if 0 < n then dc else []) ∧
    (dataFrameInit dc n true off ld).2.2 =
      (if 0 < n && off then [Action.bulkLoad] else []) := by
  have hp : r = (sc.filter (fun c => cols.contains c), []) := by
    unfold projectionNode projectionInit at h
    by_cases hc : 0 < (cols.filter (fun c => !sc.contains c)).length
    · rw [if_pos hc] at h
      simp at h
    · rw [if_neg hc] at h
      simp only [Except.ok.injEq] at h
      exact h.symm
  subst hp
  refine ⟨rfl, rfl, ?_, ?_⟩ <;>
    · unfold dataFrameInit
      by_cases hn : 0 < n <;> cases off <;> cases ld <;> simp [hn]

/-- Witness for C9 amended: a concrete Projection construction yields its
columns with no backend action, while a concrete nonempty base DataFrame
construction bulk-loads. -/
theorem construction_determines_columns_witness :
    projectionNode ["a", "b"] ["b"] = Except.ok (["b"], []) ∧
    (dataFrameInit ["a"] 2 true true false).2.2 = [Action.bulkLoad] := by
  have h := construction_determines_columns ["a", "b"] ["b"] (["b"], [])
    ["a"] 2 true false rfl
  refine ⟨rfl, ?_⟩
  rw [h.2.2.2]
  rfl

/-! Claim C10. -/

/-- C10: subscripting a DataFrame with a slice accepts only the form
with at most a stop bound: a slice with a present start or step raises
ValueError, the full slice returns the very same node object, a slice
with stop n returns a Limit node with bound n, and subscripting with a
value of any type other than a string, a list, a Criterion or a slice
raises TypeError. -/
theorem getitem_slice_rules :
    (∀ (sc : List String) (a b c : Option Int),
      a.isSome = true ∨ c.isSome = true →
      getItem sc (IndexArg.sliceArg a b c) = Except.error CErr.valueErr) ∧
    (∀ sc : List String,
      getItem sc (IndexArg.sliceArg none none none) =
        Except.ok GetItemRes.sameNode) ∧
    (∀ (sc : List String) (n : Int),
      getItem sc (IndexArg.sliceArg none (some n) none) =
        Except.ok (GetItemRes.limitOf n)) ∧
    (∀ sc : List String,
      getItem sc IndexArg.otherArg = Except.error CErr.typeErr) := by
  refine ⟨?_, fun _ => rfl, fun _ _ => rfl, fun _ => rfl⟩
  intro sc a b c hac
  simp only [getItem]
  have hcond : (a.isSome || c.isSome) = true := by
    rcases hac with h | h <;> simp [h]
  rw [if_pos hcond]

/-- Witness for C10: a slice with a start raises ValueError, and the
remaining rules evaluate on concrete inputs. -/
theorem getitem_slice_rules_witness :
    getItem ["a"] (IndexArg.sliceArg (some 0) (some 5) none) =
      Except.error CErr.valueErr ∧
    getItem ["a"] (IndexArg.sliceArg none none none) =
      Except.ok GetItemRes.sameNode ∧
    getItem ["a"] (IndexArg.sliceArg none (some 5) none) =
      Except.ok (GetItemRes.limitOf 5) ∧
    getItem ["a"] IndexArg.otherArg = Except.error CErr.typeErr :=
  ⟨getitem_slice_rules.1 ["a"] (some 0) (some 5) none (Or.inl rfl),
    getitem_slice_rules.2.1 ["a"],
    getitem_slice_rules.2.2.1 ["a"] 5,
    getitem_slice_rules.2.2.2 ["a"]⟩

end PandaSQL
